import Mathlib

/-!
Verification of the conversation session engine, persona registry and
backend adapter of the `therapy` CLI.  The JavaScript sources are embedded
shallowly: strings are Lean `String`s, the mutable chat history is passed
explicitly, the network is an oracle function, and every JS string
primitive used by the code (`toLowerCase`, `trim`, `split`) is modelled
over the character list of the string.
-/

set_option maxRecDepth 100000

namespace Therapy

/-! ### JS string primitives -/

/-- JS `String.prototype.toLowerCase` (ASCII case folding, which covers
every string the program compares). -/
def jsToLower (s : String) : String :=
  String.mk (s.data.map Char.toLower)

/-- Whitespace characters removed by JS `String.prototype.trim`
(space, tab, line feed, carriage return, vertical tab, form feed). -/
def isJsWhitespace (c : Char) : Bool :=
  c == ' ' || c == '\t' || c == '\n' || c == '\r' || c.toNat == 11 || c.toNat == 12

/-- JS `String.prototype.trim`: drop whitespace from both ends. -/
def jsTrim (s : String) : String :=
  String.mk (((s.data.dropWhile isJsWhitespace).reverse.dropWhile isJsWhitespace).reverse)

/-- Worker for `jsSplit`: scans the character list, cutting at each
occurrence of the (non-empty) separator.  `fuel` bounds the recursion;
every step consumes at least one character, so `s.length + 1` is enough. -/
def splitGo (sep : List Char) : Nat → List Char → List Char → List (List Char)
  | 0, acc, s => [acc.reverse ++ s]
  | fuel + 1, acc, s =>
    match s with
    | [] => [acc.reverse]
    | c :: rest =>
      if sep.isPrefixOf s then
        acc.reverse :: splitGo sep fuel [] (List.drop (sep.length - 1) rest)
      else
        splitGo sep fuel (c :: acc) rest

/-- JS `String.prototype.split` with a string separator: leftmost,
non-overlapping occurrences of `sep` cut `s` into pieces.  An empty
separator splits into single characters, as in JS. -/
def jsSplit (sep : String) (s : String) : List String :=
  if sep.data.isEmpty then
    s.data.map (fun c => String.mk [c])
  else
    (splitGo sep.data (s.data.length + 1) [] s.data).map String.mk

/-! ### Persona registry (`lib/prompts.js`) -/

/-- The `cbt` entry of `THERAPY_PROMPTS`. -/
def cbtPrompt : String :=
  "You are a compassionate AI mental health support assistant trained in Cognitive Behavioral Therapy (CBT) techniques. Your job is to gently help users explore their thoughts and feelings, identify negative thinking patterns, and guide them toward healthier perspectives. Be empathetic, supportive, and patient.\n\nIf the user expresses distress, sadness, anxiety, or other emotional difficulty, respond with understanding. Do not refuse to engage — instead, offer emotional validation and remind the user that they are not alone.\n\nAlways include a disclaimer when appropriate: you are not a licensed therapist and cannot replace professional care. If the conversation includes signs of crisis (e.g., suicidal thoughts), express care and recommend talking to a licensed professional or calling a local crisis line — but do not shut down the conversation entirely.\n\nBegin the session with: \"I'm here to support you. What's been on your mind lately?\""

/-- The `person` entry of `THERAPY_PROMPTS`. -/
def personPrompt : String :=
  "You are a warm and supportive AI trained in person-centered therapy. Your role is to offer a non-judgmental, empathetic space where the user feels heard and accepted. Reflect the user's emotions, validate their experiences, and let them guide the conversation at their own pace.\n\nDo not offer direct advice unless the user asks for it. Focus on empathetic understanding and active listening. If the user expresses emotional pain or vulnerability, respond with compassion and help them feel less alone.\n\nYou are not a licensed therapist and cannot provide professional care. If signs of distress or crisis appear, gently encourage the user to reach out to a trusted person or a licensed mental health professional. Do not shut down the conversation — remain present and supportive.\n\nBegin with: \"I'm here with you. What would you like to talk about today?\""

/-- The `trauma` entry of `THERAPY_PROMPTS`. -/
def traumaPrompt : String :=
  "You are a supportive AI assistant trained in trauma-informed care. Your role is to provide a calm, validating, and empowering space. Use gentle language, avoid clinical labels, and never probe into traumatic events unless the user initiates.\n\nFocus on safety, trust, and emotional regulation. Let the user set the pace. If distressing topics come up, acknowledge the user's strength in opening up and remind them that they are not alone.\n\nYou are not a licensed therapist and cannot offer medical advice, but you can offer emotional support and suggest grounding techniques. If a user appears to be in crisis, respond with care and gently encourage them to contact a mental health professional or a local crisis line — but do not disengage.\n\nStart by saying: \"I'm here to listen, gently and without judgment. What would feel safe to talk about today?\""

/-- The prompt string the `lib/prompts.js` lookup produces for every
mode whose case-folded form is not an inherited `Object.prototype`
property name (every mode a therapy session meaningfully uses, and the
form the session-engine theorems need).  The full member-lookup
semantics including the prototype chain is `getPromptForModeJs` below,
which agrees with `JsValue.str` of this function away from those keys
(proved in the C4 theorem). -/
def getPromptForMode (mode : String) : String :=
  let normalizedMode := jsToLower mode
  if normalizedMode = "cbt" then cbtPrompt
  else if normalizedMode = "person" then personPrompt
  else if normalizedMode = "trauma" then traumaPrompt
  else cbtPrompt

/-- The property names a JavaScript bracket lookup finds on
`Object.prototype` after missing every own key of the `THERAPY_PROMPTS`
object literal.  Their values — built-in functions, and the prototype
object itself for `__proto__` — are all truthy, so `|| THERAPY_PROMPTS.cbt`
does not replace them. -/
def objectPrototypeProps : List String :=
  ["constructor", "hasOwnProperty", "isPrototypeOf", "propertyIsEnumerable",
   "toLocaleString", "toString", "valueOf", "__proto__", "__defineGetter__",
   "__defineSetter__", "__lookupGetter__", "__lookupSetter__"]

/-- A value the `THERAPY_PROMPTS` lookup can produce: one of the prompt
strings, or a truthy non-string value inherited from `Object.prototype`
(tagged by the key that found it). -/
inductive JsValue where
  | str (s : String)
  | inherited (key : String)
deriving DecidableEq, Repr

/-- `getPromptForMode` of `lib/prompts.js` with full JavaScript
member-lookup semantics: `THERAPY_PROMPTS[normalizedMode]` finds the own
keys `cbt`/`person`/`trauma` (truthy strings, returned as-is); failing
those it walks the prototype chain and finds `Object.prototype`'s
properties — truthy non-string values that the `|| THERAPY_PROMPTS.cbt`
fallback does NOT replace — and only otherwise yields `undefined`,
taking the `cbt` fallback. -/
def getPromptForModeJs (mode : String) : JsValue :=
  let normalizedMode := jsToLower mode
  if normalizedMode = "cbt" then JsValue.str cbtPrompt
  else if normalizedMode = "person" then JsValue.str personPrompt
  else if normalizedMode = "trauma" then JsValue.str traumaPrompt
  else if normalizedMode ∈ objectPrototypeProps then JsValue.inherited normalizedMode
  else JsValue.str cbtPrompt

/-! ### Opening-line extraction (`cli.js` lines 62-64, `dist/therapy.js` lines 19-21) -/

/-- The fixed fallback greeting of the extraction. -/
def defaultGreeting : String :=
  "I'm here to support you. What's been on your mind lately?"

/-- `initialPrompt.split('Begin').pop().split('\"')[1] || default`:
take the segment after the last occurrence of `Begin`, then the text
between its first pair of double quotes; an absent or empty result
falls back to `defaultGreeting` (JS `||`). -/
def openingLine (systemPrompt : String) : String :=
  let afterBegin := (jsSplit "Begin" systemPrompt).getLastD ""
  match (jsSplit "\"" afterBegin).get? 1 with
  | some t => if t = "" then defaultGreeting else t
  | none => defaultGreeting

/-! ### Data model -/

/-- Chat message roles. -/
inductive Role where
  | system
  | user
  | assistant
deriving DecidableEq, Repr

/-- One chat message, as pushed onto `chatHistory`. -/
structure Message where
  role : Role
  content : String
deriving DecidableEq, Repr

/-! ### Backend adapter (`lib/ai-providers.js`)

The network is an oracle `HttpRequest → FetchOutcome`; the process-wide
`OPENAI_API_KEY` is an explicit `Option String`.  Each adapter function
returns the call result, the list of HTTP requests it issued, and the
final contents of the `messages` array it was handed (the source contains
no statement that writes to `messages`, so the translation threads it
through unchanged). -/

def OPENAI_API_URL : String := "https://api.openai.com/v1/chat/completions"

def OLLAMA_API_URL : String := "http://localhost:11434/api/chat"

/-- The JSON request bodies built by `callOpenAI` and `callOllama`. -/
inductive RequestBody where
  | openaiChat (model : String) (messages : List Message) (temperature : ℚ)
  | ollamaChat (model : String) (messages : List Message) (stream : Bool)
deriving DecidableEq, Repr

/-- An outbound `fetch` call: URL, method, headers and JSON body. -/
structure HttpRequest where
  url : String
  method : String
  headers : List (String × String)
  body : RequestBody
deriving DecidableEq, Repr

/-- What the network oracle may answer: a resolved response (with its
`ok` flag, status code, the detail string the error branch extracts from
the body or status text, and the message content the success branch
extracts), or a rejected `fetch` (connection failure). -/
inductive FetchOutcome where
  | response (ok : Bool) (status : Nat) (errorDetail : String) (content : String)
  | networkFailure
deriving DecidableEq, Repr

/-- The errors thrown by the adapter, keyed by the thrown message kinds. -/
inductive AIError where
  | unsupportedProvider (provider : String)
  | missingCredential
  | backendRejected (backend : String) (status : Nat) (detail : String)
  | backendUnreachable (backend : String)
deriving DecidableEq, Repr

/-- JS truthiness of a possibly-undefined string (`undefined` and `''`
are falsy). -/
def jsStrTruthy : Option String → Bool
  | none => false
  | some s => !(s == "")

/-- JS `v || d` for a possibly-undefined string `v`. -/
def jsOrDefault (v : Option String) (d : String) : String :=
  if jsStrTruthy v then v.getD "" else d

/-- The request `callOpenAI` builds: POST to the chat-completions URL,
bearer-credential header, body `\x7bmodel, messages, temperature: 0.7\x7d`. -/
def openaiRequest (apiKey : String) (model : String) (messages : List Message) : HttpRequest :=
  { url := OPENAI_API_URL
    method := "POST"
    headers := [("Content-Type", "application/json"),
                ("Authorization", "Bearer " ++ apiKey)]
    body := RequestBody.openaiChat model messages (0.7 : ℚ) }

/-- The request `callOllama` builds: POST to the local chat URL,
no auth header, body `\x7bmodel, messages, stream: false\x7d`. -/
def ollamaRequest (model : String) (messages : List Message) : HttpRequest :=
  { url := OLLAMA_API_URL
    method := "POST"
    headers := [("Content-Type", "application/json")]
    body := RequestBody.ollamaChat model messages false }

/-- `callOpenAI(messages, model, verbose)`: fail with the missing-key
error if `OPENAI_API_KEY` is falsy, otherwise issue the request; a
non-`ok` response throws the status error, success returns the first
completion's message content trimmed, and a failed `fetch` throws the
connection error. -/
def callOpenAI (fetch : HttpRequest → FetchOutcome) (apiKey : Option String)
    (messages : List Message) (model : String) (verbose : Bool) :
    Except AIError String × List HttpRequest × List Message :=
  if !(jsStrTruthy apiKey) then
    (Except.error AIError.missingCredential, [], messages)
  else
    let req := openaiRequest (apiKey.getD "") model messages
    match fetch req with
    | FetchOutcome.networkFailure =>
        (Except.error (AIError.backendUnreachable "OpenAI"), [req], messages)
    | FetchOutcome.response ok status errorDetail content =>
        if ok then
          (Except.ok (jsTrim content), [req], messages)
        else
          (Except.error (AIError.backendRejected "OpenAI" status errorDetail), [req], messages)

/-- `callOllama(messages, model, verbose)`: no credential; issue the
request; a non-`ok` response throws the status error, success returns
the response message content trimmed, a failed `fetch` throws the
connection error. -/
def callOllama (fetch : HttpRequest → FetchOutcome)
    (messages : List Message) (model : String) (verbose : Bool) :
    Except AIError String × List HttpRequest × List Message :=
  let req := ollamaRequest model messages
  match fetch req with
  | FetchOutcome.networkFailure =>
      (Except.error (AIError.backendUnreachable "Ollama"), [req], messages)
  | FetchOutcome.response ok status errorDetail content =>
      if ok then
        (Except.ok (jsTrim content), [req], messages)
      else
        (Except.error (AIError.backendRejected "Ollama" status errorDetail), [req], messages)

/-- The destructured `config` argument of `callAI`; `none` models an
absent (`undefined`) field. -/
structure AIConfig where
  provider : Option String
  model : Option String
  verbose : Option Bool

/-- `callAI(messages, config)`: destructure with default provider
`ollama`, switch on the case-folded provider, apply the per-provider
default model (`model || 'gpt-4'` resp. `model || 'llama3'`), and throw
the unsupported-provider error otherwise. -/
def callAI (fetch : HttpRequest → FetchOutcome) (apiKey : Option String)
    (messages : List Message) (config : AIConfig) :
    Except AIError String × List HttpRequest × List Message :=
  let provider := config.provider.getD "ollama"
  let verbose := config.verbose.getD false
  if jsToLower provider = "openai" then
    callOpenAI fetch apiKey messages (jsOrDefault config.model "gpt-4") verbose
  else if jsToLower provider = "ollama" then
    callOllama fetch messages (jsOrDefault config.model "llama3") verbose
  else
    (Except.error (AIError.unsupportedProvider provider), [], messages)

/-! ### Session engine (`lib/therapy.js`, `cli.js`)

The backend call of a turn is abstracted as an oracle
`List Message → BackendResult` (the session code treats `callAI` as an
opaque promise that resolves with a reply or rejects). -/

/-- Outcome of one awaited backend call. -/
inductive BackendResult where
  | ok (reply : String)
  | err (message : String)
deriving DecidableEq, Repr

/-- Whether a backend call succeeded. -/
def BackendResult.isOk : BackendResult → Bool
  | BackendResult.ok _ => true
  | BackendResult.err _ => false

/-- The exit-command list `['exit', 'quit', 'bye']`. -/
def exitCommands : List String := ["exit", "quit", "bye"]

/-- The exit test of the conversation loop: the list membership check on
the case-folded input — note the input is case-folded but NOT trimmed. -/
def isExitCommand (userInput : String) : Bool :=
  exitCommands.contains (jsToLower userInput)

/-- Observable outcome of one iteration of the conversation loop. -/
structure TurnResult where
  hist : List Message
  ended : Bool
  backendCalled : Bool
  farewell : Bool
deriving DecidableEq, Repr

/-- One iteration of `conversationLoop` (`lib/therapy.js` lines 36-72):
an exit command prints the farewell, closes the reader and breaks
without touching the history; otherwise the user message is pushed, the
backend is awaited, and on success the assistant reply is pushed while
on failure nothing further is pushed and the loop continues. -/
def processInput (backend : List Message → BackendResult)
    (chatHistory : List Message) (userInput : String) : TurnResult :=
  if isExitCommand userInput then
    { hist := chatHistory, ended := true, backendCalled := false, farewell := true }
  else
    let hist1 := chatHistory ++ [{ role := Role.user, content := userInput }]
    match backend hist1 with
    | BackendResult.ok aiResponse =>
        { hist := hist1 ++ [{ role := Role.assistant, content := aiResponse }]
          ended := false, backendCalled := true, farewell := false }
    | BackendResult.err _ =>
        { hist := hist1, ended := false, backendCalled := true, farewell := false }

/-- `createTherapySession` installs the persona as the sole starting
message: a one-element history holding the system message. -/
def initialHistory (mode : String) : List Message :=
  [{ role := Role.system, content := getPromptForMode mode }]

/-- The conversation loop run over a list of input lines: each line is
processed in turn until an exit command ends the session or the lines
run out. -/
def runTurns (backend : List Message → BackendResult) :
    List Message → List String → List Message
  | chatHistory, [] => chatHistory
  | chatHistory, userInput :: rest =>
    let r := processInput backend chatHistory userInput
    if r.ended then r.hist else runTurns backend r.hist rest

/-- Observable outcome of the piped-input branch. -/
structure PipedResult where
  hist : List Message
  backendCalls : Nat
  noInputNotice : Bool
  ended : Bool
deriving DecidableEq, Repr

/-- The piped branch of `startTherapySession` (`cli.js` lines 74-106):
if the accumulated stream trims to a non-blank string, that trimmed text
is pushed as the single user message and the backend is called exactly
once (its reply is printed but not pushed; its error is printed);
otherwise the "No input provided." notice is printed and no backend call
is made.  Either way no further rounds happen. -/
def handlePipedInput (backend : List Message → BackendResult)
    (chatHistory : List Message) (pipeInput : String) : PipedResult :=
  if jsTrim pipeInput ≠ "" then
    let hist1 := chatHistory ++ [{ role := Role.user, content := jsTrim pipeInput }]
    match backend hist1 with
    | BackendResult.ok _ =>
        { hist := hist1, backendCalls := 1, noInputNotice := false, ended := true }
    | BackendResult.err _ =>
        { hist := hist1, backendCalls := 1, noInputNotice := false, ended := true }
  else
    { hist := chatHistory, backendCalls := 0, noInputNotice := true, ended := true }

/-! ### Specification-side definitions (used only in theorem statements) -/

/-- The messages contributed by a list of completed user/assistant
exchanges, in order: used to state the transcript-shape invariant. -/
def pairsToMessages : List (String × String) → List Message
  | [] => []
  | (u, a) :: rest =>
    { role := Role.user, content := u } ::
      { role := Role.assistant, content := a } :: pairsToMessages rest

/-- Whether an adapter result is the unsupported-provider error. -/
def isUnsupportedResult : Except AIError String → Bool
  | Except.error (AIError.unsupportedProvider _) => true
  | _ => false

/-! ### Helper lemmas -/

theorem jsToLower_openai : jsToLower "openai" = "openai" := by decide

theorem jsToLower_ollama : jsToLower "ollama" = "ollama" := by decide

theorem pairsToMessages_length (ps : List (String × String)) :
    (pairsToMessages ps).length = 2 * ps.length := by
  induction ps with
  | nil => rfl
  | cons p rest ih =>
    obtain ⟨u, a⟩ := p
    simp [pairsToMessages, ih]
    omega

/-- A non-exit input whose backend call succeeds appends the user
message and then the assistant reply. -/
theorem processInput_ok (backend : List Message → BackendResult)
    (chatHistory : List Message) (userInput reply : String)
    (hx : isExitCommand userInput = false)
    (hb : backend (chatHistory ++ [{ role := Role.user, content := userInput }])
        = BackendResult.ok reply) :
    processInput backend chatHistory userInput =
      { hist := chatHistory ++ [{ role := Role.user, content := userInput },
                                { role := Role.assistant, content := reply }]
        ended := false, backendCalled := true, farewell := false } := by
  simp [processInput, hx, hb]

/-- A non-exit input whose backend call fails appends only the user
message. -/
theorem processInput_err (backend : List Message → BackendResult)
    (chatHistory : List Message) (userInput errMsg : String)
    (hx : isExitCommand userInput = false)
    (hb : backend (chatHistory ++ [{ role := Role.user, content := userInput }])
        = BackendResult.err errMsg) :
    processInput backend chatHistory userInput =
      { hist := chatHistory ++ [{ role := Role.user, content := userInput }]
        ended := false, backendCalled := true, farewell := false } := by
  simp [processInput, hx, hb]

/-- When no input is an exit command and every backend call succeeds,
the loop appends exactly one user/assistant pair per input. -/
theorem runTurns_ok_structure (backend : List Message → BackendResult)
    (inputs : List String) :
    ∀ chatHistory : List Message,
      (∀ i ∈ inputs, isExitCommand i = false) →
      (∀ h, (backend h).isOk = true) →
      ∃ pairs : List (String × String),
        runTurns backend chatHistory inputs = chatHistory ++ pairsToMessages pairs
        ∧ pairs.length = inputs.length := by
  induction inputs with
  | nil =>
    intro hist _ _
    exact ⟨[], by simp [runTurns, pairsToMessages], rfl⟩
  | cons i rest ih =>
    intro hist hexit hok
    have hxi : isExitCommand i = false := hexit i (List.mem_cons_self i rest)
    obtain ⟨r, hr⟩ : ∃ r,
        backend (hist ++ [{ role := Role.user, content := i }]) = BackendResult.ok r := by
      cases hb : backend (hist ++ [{ role := Role.user, content := i }]) with
      | ok r => exact ⟨r, rfl⟩
      | err m =>
        have := hok (hist ++ [{ role := Role.user, content := i }])
        rw [hb] at this
        simp [BackendResult.isOk] at this
    obtain ⟨pairs, hp, hl⟩ := ih
      (hist ++ [{ role := Role.user, content := i }, { role := Role.assistant, content := r }])
      (fun j hj => hexit j (List.mem_cons_of_mem i hj)) hok
    refine ⟨(i, r) :: pairs, ?_, by simp [hl]⟩
    simp only [runTurns, processInput_ok backend hist i r hxi hr]
    rw [if_neg (by simp)]
    rw [hp]
    simp [pairsToMessages]

/-- Every loop operation leaves the head of the transcript unchanged. -/
theorem processInput_head (backend : List Message → BackendResult)
    (chatHistory : List Message) (userInput : String) (m : Message)
    (hm : chatHistory.head? = some m) :
    (processInput backend chatHistory userInput).hist.head? = some m := by
  cases chatHistory with
  | nil => simp at hm
  | cons x t =>
    simp only [List.head?_cons, Option.some.injEq] at hm
    subst hm
    by_cases hx : isExitCommand userInput = true
    · simp [processInput, hx]
    · cases hb : backend (x :: (t ++ [{ role := Role.user, content := userInput }])) <;>
        simp [processInput, hx, hb]

/-- Iterating the loop preserves the head of the transcript. -/
theorem runTurns_head (backend : List Message → BackendResult) (inputs : List String) :
    ∀ (chatHistory : List Message) (m : Message), chatHistory.head? = some m →
      (runTurns backend chatHistory inputs).head? = some m := by
  induction inputs with
  | nil =>
    intro hist m hm
    simpa [runTurns] using hm
  | cons i rest ih =>
    intro hist m hm
    simp only [runTurns]
    by_cases he : (processInput backend hist i).ended = true
    · simp only [he, if_true]
      exact processInput_head backend hist i m hm
    · simp only [he, if_false]
      exact ih _ m (processInput_head backend hist i m hm)

/-- Evaluation helper: looking up the default mode hits the `cbt` entry,
in both views of the lookup. -/
theorem getPromptForMode_cbt_eval :
    getPromptForMode "cbt" = cbtPrompt
    ∧ getPromptForModeJs "cbt" = JsValue.str cbtPrompt := by
  exact ⟨by decide, by decide⟩

/-- `callOpenAI` can fail with the missing-key, connection or status
error, but never with the unsupported-provider error. -/
theorem callOpenAI_not_unsupported (fetch : HttpRequest → FetchOutcome)
    (apiKey : Option String) (messages : List Message) (model : String) (verbose : Bool) :
    isUnsupportedResult (callOpenAI fetch apiKey messages model verbose).1 = false := by
  simp only [callOpenAI]
  split
  · rfl
  · split
    · rfl
    · split <;> rfl

/-- `callOllama` never fails with the unsupported-provider error. -/
theorem callOllama_not_unsupported (fetch : HttpRequest → FetchOutcome)
    (messages : List Message) (model : String) (verbose : Bool) :
    isUnsupportedResult (callOllama fetch messages model verbose).1 = false := by
  simp only [callOllama]
  split
  · rfl
  · split <;> rfl

/-- With a truthy key, `callOpenAI` issues exactly its one request,
whatever the oracle answers. -/
theorem callOpenAI_requests (fetch : HttpRequest → FetchOutcome)
    (apiKey : Option String) (messages : List Message) (model : String) (verbose : Bool)
    (hk : jsStrTruthy apiKey = true) :
    (callOpenAI fetch apiKey messages model verbose).2.1
      = [openaiRequest (apiKey.getD "") model messages] := by
  simp only [callOpenAI, hk, Bool.not_true]
  split
  · simp_all
  · split
    · rfl
    · split <;> rfl

/-- `callOllama` issues exactly its one request, whatever the oracle
answers. -/
theorem callOllama_requests (fetch : HttpRequest → FetchOutcome)
    (messages : List Message) (model : String) (verbose : Bool) :
    (callOllama fetch messages model verbose).2.1 = [ollamaRequest model messages] := by
  simp only [callOllama]
  split
  · rfl
  · split <;> rfl

/-- On a successful response, `callOpenAI` returns the extracted content
trimmed. -/
theorem callOpenAI_ok (fetch : HttpRequest → FetchOutcome)
    (apiKey : Option String) (messages : List Message) (model : String) (verbose : Bool)
    (status : Nat) (errorDetail content : String)
    (hk : jsStrTruthy apiKey = true)
    (hf : fetch (openaiRequest (apiKey.getD "") model messages)
        = FetchOutcome.response true status errorDetail content) :
    (callOpenAI fetch apiKey messages model verbose).1 = Except.ok (jsTrim content) := by
  simp [callOpenAI, hk, hf]

/-- On a successful response, `callOllama` returns the extracted content
trimmed. -/
theorem callOllama_ok (fetch : HttpRequest → FetchOutcome)
    (messages : List Message) (model : String) (verbose : Bool)
    (status : Nat) (errorDetail content : String)
    (hf : fetch (ollamaRequest model messages)
        = FetchOutcome.response true status errorDetail content) :
    (callOllama fetch messages model verbose).1 = Except.ok (jsTrim content) := by
  simp [callOllama, hf]

/-- The default element of `getLastD` is irrelevant for a non-empty
list: the result is a member. -/
theorem getLastD_mem {α : Type} : ∀ (l : List α) (d : α), l ≠ [] → l.getLastD d ∈ l := by
  intro l
  induction l with
  | nil => intro d h; exact absurd rfl h
  | cons x t ih =>
    intro d _
    rw [List.getLastD_cons]
    cases t with
    | nil => simp [List.getLastD]
    | cons y u => exact List.mem_cons_of_mem x (ih x (by simp))

/-- Every character of every piece produced by `splitGo` comes from the
accumulator or from the unscanned input. -/
theorem mem_splitGo_chars (sep : List Char) : ∀ (fuel : Nat) (acc s x : List Char),
    x ∈ splitGo sep fuel acc s → ∀ c ∈ x, c ∈ acc ∨ c ∈ s := by
  intro fuel
  induction fuel with
  | zero =>
    intro acc s x hx c hc
    simp only [splitGo, List.mem_singleton] at hx
    subst hx
    rcases List.mem_append.1 hc with h | h
    · exact Or.inl (List.mem_reverse.1 h)
    · exact Or.inr h
  | succ n ih =>
    intro acc s x hx c hc
    cases s with
    | nil =>
      simp only [splitGo, List.mem_singleton] at hx
      subst hx
      exact Or.inl (List.mem_reverse.1 hc)
    | cons d rest =>
      simp only [splitGo] at hx
      split at hx
      · rcases List.mem_cons.1 hx with h | h
        · subst h
          exact Or.inl (List.mem_reverse.1 hc)
        · rcases ih [] (List.drop (sep.length - 1) rest) x h c hc with h' | h'
          · exact absurd h' (List.not_mem_nil c)
          · exact Or.inr (List.mem_cons_of_mem d (List.mem_of_mem_drop h'))
      · rcases ih (d :: acc) rest x hx c hc with h' | h'
        · rcases List.mem_cons.1 h' with h'' | h''
          · exact Or.inr (by simp [h''])
          · exact Or.inl h''
        · exact Or.inr (List.mem_cons_of_mem d h')

/-- Scanning for a single character that never occurs yields the whole
input as one piece. -/
theorem splitGo_single_all_ne (q : Char) : ∀ (fuel : Nat) (acc s : List Char),
    (∀ c ∈ s, c ≠ q) → splitGo [q] fuel acc s = [acc.reverse ++ s] := by
  intro fuel
  induction fuel with
  | zero =>
    intro acc s _
    rfl
  | succ n ih =>
    intro acc s hno
    cases s with
    | nil => simp [splitGo]
    | cons d rest =>
      have hdq : ¬ ([q].isPrefixOf (d :: rest) = true) := by
        simp [List.isPrefixOf]
        exact fun h => absurd h.symm (hno d (List.mem_cons_self d rest))
      simp only [splitGo]
      rw [if_neg hdq]
      rw [ih (d :: acc) rest (fun c hc => hno c (List.mem_cons_of_mem d hc))]
      simp

/-- `jsSplit` on the separator `Begin` unfolds to the scanner. -/
theorem jsSplit_begin_eq (s : String) :
    jsSplit "Begin" s
      = (splitGo ("Begin" : String).data (s.data.length + 1) [] s.data).map String.mk := by
  unfold jsSplit
  rw [if_neg (by decide : ¬ ((("Begin" : String).data.isEmpty) = true))]

/-- Splitting on a single character absent from the string returns the
string whole. -/
theorem jsSplit_no_occurrence (q : Char) (s : String) (h : ∀ c ∈ s.data, c ≠ q) :
    jsSplit (String.mk [q]) s = [s] := by
  unfold jsSplit
  rw [if_neg (by simp : ¬ (((String.mk [q]).data.isEmpty) = true))]
  rw [splitGo_single_all_ne q (s.data.length + 1) [] s.data h]
  simp

/-- If a string contains no double quote, the opening-line extraction
returns the fixed default greeting. -/
theorem openingLine_fallback (s : String) (h : ∀ c ∈ s.data, c ≠ '\"') :
    openingLine s = defaultGreeting := by
  have hq : ∀ c ∈ ((jsSplit "Begin" s).getLastD "").data, c ≠ '\"' := by
    intro c hc
    refine h c ?_
    by_cases hn : jsSplit "Begin" s = []
    · rw [hn] at hc
      simp [List.getLastD] at hc
    · have hmem := getLastD_mem (jsSplit "Begin" s) "" hn
      rw [jsSplit_begin_eq] at hmem hc
      obtain ⟨xs, hxs, hx⟩ := List.mem_map.1 hmem
      rw [← hx] at hc
      rcases mem_splitGo_chars ("Begin" : String).data _ [] s.data xs hxs c hc with h' | h'
      · exact absurd h' (List.not_mem_nil c)
      · exact h'
  have hrw := jsSplit_no_occurrence '\"' ((jsSplit "Begin" s).getLastD "") hq
  simp only [openingLine]
  rw [show ("\"" : String) = String.mk ['\"'] from rfl, hrw]
  rfl

/-! ### Claim theorems -/

/-- C1, counterexample: the spec claims the exit test trims the input,
but the code only case-folds it.  For the input `" quit "` the trimmed,
case-folded form is exactly the exit token `"quit"`, yet the session
does not end: the loop appends a user message with the raw text, calls
the backend, and continues. -/
theorem exit_trimming_cex :
    jsToLower (jsTrim " quit ") = "quit"
    ∧ (processInput (fun _ => BackendResult.err "e") (initialHistory "cbt") " quit ").ended = false
    ∧ (processInput (fun _ => BackendResult.err "e") (initialHistory "cbt") " quit ").backendCalled = true
    ∧ (processInput (fun _ => BackendResult.err "e") (initialHistory "cbt") " quit ").hist
        = initialHistory "cbt" ++ [{ role := Role.user, content := " quit " }] := by
  decide

/-- C1, amended: an input ends the session exactly when its case-folded
(but NOT trimmed) form is one of `exit`, `quit`, `bye`; then the session
ends with a farewell, no user message is appended and no backend call is
made.  `"exit"`, `"EXIT"`, `"Bye"` qualify; `" quit "` and `"exit now"`
do not, and any non-matching input leaves the session running with a
backend call made. -/
theorem exit_detection_amended (backend : List Message → BackendResult)
    (chatHistory : List Message) (userInput : String) :
    (isExitCommand userInput = true →
      processInput backend chatHistory userInput =
        { hist := chatHistory, ended := true, backendCalled := false, farewell := true })
    ∧ (isExitCommand userInput = false →
      (processInput backend chatHistory userInput).ended = false
      ∧ (processInput backend chatHistory userInput).backendCalled = true)
    ∧ isExitCommand "exit" = true ∧ isExitCommand "EXIT" = true
    ∧ isExitCommand "Bye" = true ∧ isExitCommand "quit" = true ∧ isExitCommand "bye" = true
    ∧ isExitCommand " quit " = false ∧ isExitCommand "exit now" = false := by
  refine ⟨?_, ?_, by decide, by decide, by decide, by decide, by decide, by decide, by decide⟩
  · intro h
    simp [processInput, h]
  · intro h
    cases hb : backend (chatHistory ++ [{ role := Role.user, content := userInput }]) <;>
      simp [processInput, h, hb]

/-- C1, witness: the amended theorem applied to the concrete exit input
`"EXIT"` starting from the empty history. -/
theorem exit_detection_amended_witness :
    processInput (fun _ => BackendResult.err "e") [] "EXIT" =
      { hist := [], ended := true, backendCalled := false, farewell := true } :=
  (exit_detection_amended (fun _ => BackendResult.err "e") [] "EXIT").1 (by decide)

/-- C4, counterexample: at the unrecognized mode `"constructor"` the
bracket lookup finds the inherited, truthy
`Object.prototype.constructor`, so the code returns that non-string
value and not the `cbt` prompt string the claim requires; likewise for
`"__proto__"`, and for case variants such as `"CONSTRUCTOR"` after case
folding. -/
theorem resolvePersona_prototype_cex :
    getPromptForModeJs "constructor" = JsValue.inherited "constructor"
    ∧ getPromptForModeJs "CONSTRUCTOR" = JsValue.inherited "constructor"
    ∧ getPromptForModeJs "__proto__" = JsValue.inherited "__proto__"
    ∧ getPromptForModeJs "cbt" = JsValue.str cbtPrompt
    ∧ getPromptForModeJs "constructor" ≠ getPromptForModeJs "cbt"
    ∧ getPromptForModeJs "constructor" ≠ JsValue.str cbtPrompt := by
  refine ⟨by decide, by decide, by decide, by decide, by decide, by decide⟩

/-- C4, amended: the lookup is a pure total function; each of the three
modes (up to letter case) yields its fixed prompt string, the three
prompts are non-empty and pairwise distinct, and any other mode —
including the empty string — yields exactly the `cbt` prompt string
UNLESS its case-folded form names an inherited `Object.prototype`
property, in which case the truthy inherited non-string value leaks
through instead of the fallback.  Away from those inherited keys the
lookup agrees with the string-valued `getPromptForMode` used by the
session-engine theorems. -/
theorem resolvePersona_contract_amended (mode : String) :
    (jsToLower mode = "cbt" → getPromptForModeJs mode = JsValue.str cbtPrompt)
    ∧ (jsToLower mode = "person" → getPromptForModeJs mode = JsValue.str personPrompt)
    ∧ (jsToLower mode = "trauma" → getPromptForModeJs mode = JsValue.str traumaPrompt)
    ∧ (jsToLower mode ≠ "cbt" → jsToLower mode ≠ "person" → jsToLower mode ≠ "trauma" →
        jsToLower mode ∉ objectPrototypeProps →
        getPromptForModeJs mode = getPromptForModeJs "cbt")
    ∧ (jsToLower mode ∈ objectPrototypeProps →
        getPromptForModeJs mode = JsValue.inherited (jsToLower mode))
    ∧ getPromptForModeJs "" = getPromptForModeJs "cbt"
    ∧ cbtPrompt ≠ "" ∧ personPrompt ≠ "" ∧ traumaPrompt ≠ ""
    ∧ cbtPrompt ≠ personPrompt ∧ cbtPrompt ≠ traumaPrompt ∧ personPrompt ≠ traumaPrompt
    ∧ (∀ m : String, jsToLower m ∉ objectPrototypeProps →
        getPromptForModeJs m = JsValue.str (getPromptForMode m))
    ∧ getPromptForModeJs mode = getPromptForModeJs mode := by
  refine ⟨?_, ?_, ?_, ?_, ?_, by decide, by decide, by decide, by decide,
    by decide, by decide, by decide, ?_, rfl⟩
  · intro h; simp [getPromptForModeJs, h]
  · intro h; simp [getPromptForModeJs, h]
  · intro h; simp [getPromptForModeJs, h]
  · intro h1 h2 h3 h4
    rw [getPromptForMode_cbt_eval.2]
    simp [getPromptForModeJs, h1, h2, h3, h4]
  · intro h
    have h1 : jsToLower mode ≠ "cbt" := by
      intro e; rw [e] at h; exact absurd h (by decide)
    have h2 : jsToLower mode ≠ "person" := by
      intro e; rw [e] at h; exact absurd h (by decide)
    have h3 : jsToLower mode ≠ "trauma" := by
      intro e; rw [e] at h; exact absurd h (by decide)
    simp [getPromptForModeJs, h1, h2, h3, h]
  · intro m hm
    by_cases h1 : jsToLower m = "cbt"
    · simp [getPromptForModeJs, getPromptForMode, h1]
    · by_cases h2 : jsToLower m = "person"
      · simp [getPromptForModeJs, getPromptForMode, h1, h2]
      · by_cases h3 : jsToLower m = "trauma"
        · simp [getPromptForModeJs, getPromptForMode, h1, h2, h3]
        · simp [getPromptForModeJs, getPromptForMode, h1, h2, h3, hm]

/-- C4, witness: the amended contract at the concrete modes `"CBT"`
(supported, any case) and `"constructor"` (inherited-property leak). -/
theorem resolvePersona_contract_amended_witness :
    getPromptForModeJs "CBT" = JsValue.str cbtPrompt
    ∧ getPromptForModeJs "constructor" = JsValue.inherited "constructor" := by
  refine ⟨(resolvePersona_contract_amended "CBT").1 (by decide), ?_⟩
  have h := (resolvePersona_contract_amended "constructor").2.2.2.2.1 (by decide)
  rwa [show jsToLower "constructor" = "constructor" from by decide] at h

/-- C6: in piped mode the whole stream is one message: a blank stream
produces the no-input notice, no backend call and an unchanged history,
and the session ends; a non-blank stream appends exactly one user
message (the trimmed stream), makes exactly one backend call, prints no
notice, and the session ends either way. -/
theorem piped_single_message (backend : List Message → BackendResult)
    (chatHistory : List Message) (pipeInput : String) :
    (jsTrim pipeInput = "" →
      handlePipedInput backend chatHistory pipeInput =
        { hist := chatHistory, backendCalls := 0, noInputNotice := true, ended := true })
    ∧ (jsTrim pipeInput ≠ "" →
      (handlePipedInput backend chatHistory pipeInput).hist
          = chatHistory ++ [{ role := Role.user, content := jsTrim pipeInput }]
      ∧ (handlePipedInput backend chatHistory pipeInput).backendCalls = 1
      ∧ (handlePipedInput backend chatHistory pipeInput).noInputNotice = false
      ∧ (handlePipedInput backend chatHistory pipeInput).ended = true) := by
  constructor
  · intro h
    simp [handlePipedInput, h]
  · intro h
    cases hb : backend (chatHistory ++ [{ role := Role.user, content := jsTrim pipeInput }]) <;>
      simp [handlePipedInput, h, hb]

/-- C6, witness: the piped theorem applied to the concrete blank stream
`"   "`. -/
theorem piped_single_message_witness :
    handlePipedInput (fun _ => BackendResult.err "e") [] "   " =
      { hist := [], backendCalls := 0, noInputNotice := true, ended := true } :=
  (piped_single_message (fun _ => BackendResult.err "e") [] "   ").1 (by decide)

/-- C8: the adapter never changes the messages list it is given — the
final contents of the `messages` array equal the initial contents for
`callAI` and for both concrete backends, whatever the oracle answers. -/
theorem adapter_preserves_messages (fetch : HttpRequest → FetchOutcome)
    (apiKey : Option String) (messages : List Message) (config : AIConfig)
    (model : String) (verbose : Bool) :
    (callAI fetch apiKey messages config).2.2 = messages
    ∧ (callOpenAI fetch apiKey messages model verbose).2.2 = messages
    ∧ (callOllama fetch messages model verbose).2.2 = messages := by
  have hOpen : ∀ (k : Option String) (m : String) (v : Bool),
      (callOpenAI fetch k messages m v).2.2 = messages := by
    intro k m v
    simp only [callOpenAI]
    split
    · rfl
    · split
      · rfl
      · split <;> rfl
  have hOll : ∀ (m : String) (v : Bool),
      (callOllama fetch messages m v).2.2 = messages := by
    intro m v
    simp only [callOllama]
    split
    · rfl
    · split <;> rfl
  refine ⟨?_, hOpen apiKey model verbose, hOll model verbose⟩
  simp only [callAI]
  split
  · exact hOpen apiKey _ _
  · split
    · exact hOll _ _
    · rfl

/-- C2: starting from the lone system message, N non-exit turns with an
always-successful backend leave a transcript of exactly the system
message followed by N user/assistant pairs in order (length `1 + 2N`);
one further turn whose backend call fails appends exactly the dangling
user message and nothing else (length `1 + 2N + 1`). -/
theorem transcript_length_invariant (mode : String)
    (backend : List Message → BackendResult) (inputs : List String)
    (failInput errMsg : String)
    (hexit : ∀ i ∈ inputs, isExitCommand i = false)
    (hok : ∀ h, (backend h).isOk = true)
    (hfail : isExitCommand failInput = false) :
    (∃ pairs : List (String × String),
      runTurns backend (initialHistory mode) inputs
          = initialHistory mode ++ pairsToMessages pairs
      ∧ pairs.length = inputs.length)
    ∧ (runTurns backend (initialHistory mode) inputs).length = 1 + 2 * inputs.length
    ∧ (processInput (fun _ => BackendResult.err errMsg)
        (runTurns backend (initialHistory mode) inputs) failInput).hist
        = runTurns backend (initialHistory mode) inputs
            ++ [{ role := Role.user, content := failInput }]
    ∧ (processInput (fun _ => BackendResult.err errMsg)
        (runTurns backend (initialHistory mode) inputs) failInput).hist.length
        = 1 + 2 * inputs.length + 1 := by
  obtain ⟨pairs, hp, hl⟩ := runTurns_ok_structure backend inputs (initialHistory mode) hexit hok
  have hlen : (runTurns backend (initialHistory mode) inputs).length = 1 + 2 * inputs.length := by
    rw [hp]
    simp [initialHistory, pairsToMessages_length, hl]
    omega
  have hfailstep := processInput_err (fun _ => BackendResult.err errMsg)
    (runTurns backend (initialHistory mode) inputs) failInput errMsg hfail rfl
  refine ⟨⟨pairs, hp, hl⟩, hlen, ?_, ?_⟩
  · rw [hfailstep]
  · rw [hfailstep]
    simp [hlen]

/-- C2, witness: one successful turn then one failed turn, concretely. -/
theorem transcript_length_invariant_witness :
    (runTurns (fun _ => BackendResult.ok "r") (initialHistory "cbt") ["a"]).length
        = 1 + 2 * (["a"] : List String).length
    ∧ (processInput (fun _ => BackendResult.err "e")
        (runTurns (fun _ => BackendResult.ok "r") (initialHistory "cbt") ["a"]) "b").hist.length
        = 1 + 2 * (["a"] : List String).length + 1 := by
  have h := transcript_length_invariant "cbt" (fun _ => BackendResult.ok "r") ["a"] "b" "e"
    (by decide) (fun _ => rfl) (by decide)
  exact ⟨h.2.1, h.2.2.2⟩

/-- C9: the first transcript entry is always the unchanged system
persona message: it is installed at creation, the whole loop keeps it as
the head of the transcript, and each single operation (exit, successful
or failed turn) preserves whatever head the transcript has. -/
theorem system_message_invariant (mode : String)
    (backend : List Message → BackendResult) (inputs : List String)
    (userInput : String) (chatHistory : List Message) (m : Message)
    (hm : chatHistory.head? = some m) :
    (initialHistory mode).head? =
      some { role := Role.system, content := getPromptForMode mode }
    ∧ (runTurns backend (initialHistory mode) inputs).head? =
      some { role := Role.system, content := getPromptForMode mode }
    ∧ (processInput backend chatHistory userInput).hist.head? = some m := by
  refine ⟨rfl, ?_, processInput_head backend chatHistory userInput m hm⟩
  exact runTurns_head backend inputs (initialHistory mode) _ rfl

/-- C9, witness: the invariant at a concrete session. -/
theorem system_message_invariant_witness :
    (runTurns (fun _ => BackendResult.err "e") (initialHistory "cbt") ["hi"]).head? =
      some { role := Role.system, content := getPromptForMode "cbt" } :=
  (system_message_invariant "cbt" (fun _ => BackendResult.err "e") ["hi"] "x"
    [{ role := Role.system, content := "s" }] { role := Role.system, content := "s" } rfl).2.1

/-- C3: a provider whose case-folded form is neither `openai` nor
`ollama` makes `callAI` fail with the unsupported-provider error having
issued no request; and a provider resolving to `openai` with an absent
(falsy) credential fails with the missing-credential error, again with
no request issued. -/
theorem adapter_guard_errors (fetch : HttpRequest → FetchOutcome)
    (apiKey : Option String) (messages : List Message) (config : AIConfig) (p : String) :
    (config.provider = some p → jsToLower p ≠ "openai" → jsToLower p ≠ "ollama" →
      callAI fetch apiKey messages config
        = (Except.error (AIError.unsupportedProvider p), [], messages))
    ∧ (jsToLower (config.provider.getD "ollama") = "openai" → jsStrTruthy apiKey = false →
      callAI fetch apiKey messages config
        = (Except.error AIError.missingCredential, [], messages)) := by
  constructor
  · intro hp h1 h2
    simp [callAI, hp, h1, h2]
  · intro hp hk
    simp [callAI, hp, callOpenAI, hk]

/-- C3, witness: the two guards at concrete inputs (`"foo"` as an
unknown provider; `openai` with no key in the environment). -/
theorem adapter_guard_errors_witness :
    callAI (fun _ => FetchOutcome.networkFailure) none []
        { provider := some "foo", model := none, verbose := none }
      = (Except.error (AIError.unsupportedProvider "foo"), [], [])
    ∧ callAI (fun _ => FetchOutcome.networkFailure) none []
        { provider := some "openai", model := none, verbose := none }
      = (Except.error AIError.missingCredential, [], []) :=
  ⟨(adapter_guard_errors (fun _ => FetchOutcome.networkFailure) none []
      { provider := some "foo", model := none, verbose := none } "foo").1
      rfl (by decide) (by decide),
   (adapter_guard_errors (fun _ => FetchOutcome.networkFailure) none []
      { provider := some "openai", model := none, verbose := none } "openai").2
      (by decide) rfl⟩

/-- C7: with no model specified the OpenAI path uses `gpt-4` and the
Ollama path uses `llama3`; the one request issued is a POST carrying the
JSON body `\x7bmodel, messages, temperature: 0.7\x7d` with a bearer
header for OpenAI, resp. `\x7bmodel, messages, stream: false\x7d` with
no auth header for Ollama; and a successful response yields the
extracted content with surrounding whitespace trimmed. -/
theorem request_shapes_and_defaults (fetch : HttpRequest → FetchOutcome)
    (k : String) (messages : List Message) (vb : Option Bool)
    (status : Nat) (errorDetail content : String) (hk : k ≠ "") :
    (callAI fetch (some k) messages { provider := some "openai", model := none, verbose := vb }).2.1
        = [openaiRequest k "gpt-4" messages]
    ∧ (callAI fetch none messages { provider := some "ollama", model := none, verbose := vb }).2.1
        = [ollamaRequest "llama3" messages]
    ∧ openaiRequest k "gpt-4" messages =
        { url := OPENAI_API_URL, method := "POST"
          headers := [("Content-Type", "application/json"), ("Authorization", "Bearer " ++ k)]
          body := RequestBody.openaiChat "gpt-4" messages (0.7 : ℚ) }
    ∧ ollamaRequest "llama3" messages =
        { url := OLLAMA_API_URL, method := "POST"
          headers := [("Content-Type", "application/json")]
          body := RequestBody.ollamaChat "llama3" messages false }
    ∧ (fetch (openaiRequest k "gpt-4" messages)
          = FetchOutcome.response true status errorDetail content →
        (callAI fetch (some k) messages
            { provider := some "openai", model := none, verbose := vb }).1
          = Except.ok (jsTrim content))
    ∧ (fetch (ollamaRequest "llama3" messages)
          = FetchOutcome.response true status errorDetail content →
        (callAI fetch none messages
            { provider := some "ollama", model := none, verbose := vb }).1
          = Except.ok (jsTrim content)) := by
  have hkt : jsStrTruthy (some k) = true := by simp [jsStrTruthy, hk]
  have hcallO : callAI fetch (some k) messages
      { provider := some "openai", model := none, verbose := vb }
      = callOpenAI fetch (some k) messages "gpt-4" (vb.getD false) := by
    simp [callAI, jsToLower_openai, jsOrDefault, jsStrTruthy]
  have hcallL : callAI fetch none messages
      { provider := some "ollama", model := none, verbose := vb }
      = callOllama fetch messages "llama3" (vb.getD false) := by
    simp [callAI, jsToLower_ollama, jsOrDefault, jsStrTruthy]
  refine ⟨?_, ?_, rfl, rfl, ?_, ?_⟩
  · rw [hcallO]
    simpa using callOpenAI_requests fetch (some k) messages "gpt-4" (vb.getD false) hkt
  · rw [hcallL]
    exact callOllama_requests fetch messages "llama3" (vb.getD false)
  · intro hf
    rw [hcallO]
    exact callOpenAI_ok fetch (some k) messages "gpt-4" (vb.getD false) status errorDetail
      content hkt (by simpa using hf)
  · intro hf
    rw [hcallL]
    exact callOllama_ok fetch messages "llama3" (vb.getD false) status errorDetail content hf

/-- C7, witness: a concrete successful OpenAI call returns the reply
trimmed. -/
theorem request_shapes_and_defaults_witness :
    (callAI (fun _ => FetchOutcome.response true 200 "" " r ") (some "k") []
        { provider := some "openai", model := none, verbose := none }).1
      = Except.ok (jsTrim " r ") :=
  (request_shapes_and_defaults (fun _ => FetchOutcome.response true 200 "" " r ")
    "k" [] none 200 "" " r " (by decide)).2.2.2.2.1 rfl

/-- C10: provider dispatch is case-insensitive — any provider that
case-folds to `openai` (resp. `ollama`) behaves exactly like the
lowercase form and dispatches to that backend, and the
unsupported-provider error occurs precisely when the case-folded
provider is neither. -/
theorem provider_case_insensitive (fetch : HttpRequest → FetchOutcome)
    (apiKey : Option String) (messages : List Message)
    (model : Option String) (verbose : Option Bool) (p : String) :
    (jsToLower p = "openai" →
      callAI fetch apiKey messages { provider := some p, model := model, verbose := verbose }
        = callAI fetch apiKey messages
            { provider := some (jsToLower p), model := model, verbose := verbose }
      ∧ callAI fetch apiKey messages { provider := some p, model := model, verbose := verbose }
        = callOpenAI fetch apiKey messages (jsOrDefault model "gpt-4") (verbose.getD false))
    ∧ (jsToLower p = "ollama" →
      callAI fetch apiKey messages { provider := some p, model := model, verbose := verbose }
        = callAI fetch apiKey messages
            { provider := some (jsToLower p), model := model, verbose := verbose }
      ∧ callAI fetch apiKey messages { provider := some p, model := model, verbose := verbose }
        = callOllama fetch messages (jsOrDefault model "llama3") (verbose.getD false))
    ∧ (isUnsupportedResult
        (callAI fetch apiKey messages
          { provider := some p, model := model, verbose := verbose }).1 = true
        ↔ (jsToLower p ≠ "openai" ∧ jsToLower p ≠ "ollama")) := by
  refine ⟨?_, ?_, ?_, ?_⟩
  · intro h
    exact ⟨by simp [callAI, h, jsToLower_openai], by simp [callAI, h]⟩
  · intro h
    exact ⟨by simp [callAI, h, jsToLower_ollama], by simp [callAI, h]⟩
  · intro h
    refine ⟨?_, ?_⟩
    · intro h1
      simp [callAI, h1, callOpenAI_not_unsupported] at h
    · intro h2
      simp [callAI, h2, callOllama_not_unsupported] at h
  · intro h
    obtain ⟨h1, h2⟩ := h
    simp [callAI, h1, h2, isUnsupportedResult]

/-- C10, witness: `"OpenAI"` behaves exactly like `"openai"`. -/
theorem provider_case_insensitive_witness :
    callAI (fun _ => FetchOutcome.networkFailure) (some "k") []
        { provider := some "OpenAI", model := none, verbose := none }
      = callAI (fun _ => FetchOutcome.networkFailure) (some "k") []
          { provider := some "openai", model := none, verbose := none } := by
  have h := (provider_case_insensitive (fun _ => FetchOutcome.networkFailure) (some "k")
    ([] : List Message) none none "OpenAI").1 (by decide)
  have h1 := h.1
  rwa [show jsToLower "OpenAI" = "openai" from by decide] at h1

/-- C5: the extraction applied to each built-in persona yields that
persona's embedded non-empty greeting, and applied to any string with no
double-quote character (so lacking the expected markers) it yields
exactly the fixed default greeting. -/
theorem openingLine_contract :
    (openingLine cbtPrompt = "I'm here to support you. What's been on your mind lately?"
      ∧ openingLine cbtPrompt ≠ "")
    ∧ (openingLine personPrompt = "I'm here with you. What would you like to talk about today?"
      ∧ openingLine personPrompt ≠ "")
    ∧ (openingLine traumaPrompt
        = "I'm here to listen, gently and without judgment. What would feel safe to talk about today?"
      ∧ openingLine traumaPrompt ≠ "")
    ∧ ∀ s : String, (∀ c ∈ s.data, c ≠ '\"') → openingLine s = defaultGreeting := by
  refine ⟨⟨by decide, by decide⟩, ⟨by decide, by decide⟩, ⟨by decide, by decide⟩, ?_⟩
  exact openingLine_fallback

/-- C5, witness: the fallback at the concrete marker-free string
`"hello"`. -/
theorem openingLine_contract_witness : openingLine "hello" = defaultGreeting :=
  openingLine_contract.2.2.2 "hello" (by decide)

end Therapy
